import Mathlib

/-!
Verification of the grid drag-and-drop core of the Funday repository.

The embedded code lives in src/views/GridRealm.tsx (grid mapping, collision
check, drag state machine) and src/App.tsx (handleAssetMove, the commit
callback that updates the placement table). World coordinates are JavaScript
numbers; finite doubles are rational, so world space is modelled by the
rationals. Grid cells are integer pairs. Assets are projected to the two
fields the drag core reads: the identifier and the optional grid cell; the
remaining fields (name, value, risk, ...) never influence placement logic.
-/

namespace Funday

/-- Grid dimension, from GridRealm.tsx line 12: a 10 by 10 board. -/
def GRID_SIZE : ℤ := 10

/-- World units per cell, from GridRealm.tsx line 13. -/
def CELL_SIZE : ℚ := 4

/-- Projection of the Asset interface (src/unnamed/part_000) to the fields the
drag core reads: the identifier and the optional 1-based grid cell. -/
structure Asset where
  id : String
  gridPosition : Option (ℤ × ℤ)
deriving DecidableEq, Repr

/-- The fields of a dragged THREE.Mesh that the drag handlers read and write:
userData.assetId, position (x, y, z) and userData.originalPos (x, y, z). -/
structure Obj where
  assetId : String
  posX : ℚ
  posY : ℚ
  posZ : ℚ
  origX : ℚ
  origY : ℚ
  origZ : ℚ
deriving DecidableEq, Repr

/-- The mutable drag state of GridRealm.tsx lines 208 and 209:
isDragging and draggedObject. -/
structure DragMachine where
  isDragging : Bool
  draggedObject : Option Obj
deriving DecidableEq, Repr

/-- Clamped 0-based grid coordinate of a world coordinate, GridRealm.tsx
lines 258 and 262: floor of p / CELL_SIZE + GRID_SIZE / 2, clamped to
the interval from 0 to GRID_SIZE - 1. -/
def snapCoord (p : ℚ) : ℤ :=
  max 0 (min (GRID_SIZE - 1) (Int.floor (p / CELL_SIZE + (GRID_SIZE : ℚ) / 2)))

/-- World-space center of the 0-based grid coordinate g, GridRealm.tsx
lines 152 and 265: (g - GRID_SIZE / 2 + 0.5) * CELL_SIZE. -/
def snapCenter (g : ℤ) : ℚ :=
  ((g : ℚ) - (GRID_SIZE : ℚ) / 2 + 1 / 2) * CELL_SIZE

/-- The 1-based cell a world point maps to on the pointer-move path,
GridRealm.tsx lines 258 to 276: snap each axis and add 1. -/
def worldToCell (w : ℚ × ℚ) : ℤ × ℤ :=
  (snapCoord w.1 + 1, snapCoord w.2 + 1)

/-- World-space center of a 1-based cell, GridRealm.tsx lines 141 to 153:
the mesh of an asset in cell (c, r) sits at ((c - 1) - GRID_SIZE / 2 + 0.5)
times CELL_SIZE on each axis. -/
def cellToWorld (cell : ℤ × ℤ) : ℚ × ℚ :=
  (snapCenter (cell.1 - 1), snapCenter (cell.2 - 1))

/-- The 1-based drop coordinate computed on pointer-up, GridRealm.tsx
lines 352 and 353: floor of p / CELL_SIZE + GRID_SIZE / 2, plus 1, with
no clamping. -/
def dropCoord (p : ℚ) : ℤ :=
  Int.floor (p / CELL_SIZE + (GRID_SIZE : ℚ) / 2) + 1

/-- The truth value of the JavaScript test
gridPosition and gridPosition.x === x and gridPosition.y === y,
GridRealm.tsx lines 280 to 282 and 358 to 360. -/
def cellMatches (gp : Option (ℤ × ℤ)) (t : ℤ × ℤ) : Bool :=
  match gp with
  | some p => p.1 == t.1 && p.2 == t.2
  | none => false

/-- Collision check, GridRealm.tsx lines 278 to 283 and 356 to 361: some
asset other than the excluded one has an explicit cell equal to the target. -/
def isOccupied (target : ℤ × ℤ) (excluding : String) (assets : List Asset) : Bool :=
  assets.any fun a => (a.id != excluding) && cellMatches a.gridPosition target

/-- The commit callback handleAssetMove of src/App.tsx lines 17 to 24:
map over the assets, giving the matching identifier the new cell. -/
def handleAssetMove (id : String) (newPos : ℤ × ℤ) (assets : List Asset) : List Asset :=
  assets.map fun asset =>
    if asset.id == id then { asset with gridPosition := some newPos } else asset

/-- Pointer-down handler, GridRealm.tsx lines 212 to 240. The ray cast
against the building meshes is geometric and external; its result (the
topmost hit building, or none) is the pick argument. When a building with
a truthy assetId is hit the handler sets isDragging, makes that mesh the
dragged object and lifts it by one unit; there is no isDragging guard. -/
def onPointerDown (m : DragMachine) (pick : Option Obj) : DragMachine :=
  match pick with
  | none => m
  | some o =>
      if o.assetId == "" then m
      else { isDragging := true, draggedObject := some { o with posY := o.posY + 1 } }

/-- Dragging branch of the pointer-move handler, GridRealm.tsx lines 248
to 271: the plane intersection point (px, pz) is snapped to the clamped
cell center and the dragged mesh is moved there, kept lifted by one unit
above its original height. -/
def onPointerMoveDrag (o : Obj) (px pz : ℚ) : Obj :=
  { o with
    posX := snapCenter (snapCoord px)
    posY := o.origY + 1
    posZ := snapCenter (snapCoord pz) }

/-- The occupancy feedback signal emitted while dragging, GridRealm.tsx
lines 275 to 283: the 1-based target cell is the snapped coordinate plus
one, checked against the current assets excluding the dragged one. -/
def moveOccupiedSignal (o : Obj) (px pz : ℚ) (assets : List Asset) : Bool :=
  isOccupied (snapCoord px + 1, snapCoord pz + 1) o.assetId assets

/-- Result of the pointer-up handler: the machine state after the event,
the commit event passed to onAssetMove if one fired, and the final state
of the mesh that was being dragged, if any. -/
structure UpOutcome where
  machine : DragMachine
  event : Option (String × (ℤ × ℤ))
  object : Option Obj
deriving DecidableEq, Repr

/-- Pointer-up handler, GridRealm.tsx lines 345 to 387. When a drag is
active: compute the 1-based drop cell from the current mesh position; if
the cell is occupied by another asset, copy originalPos back into the
position and emit nothing; otherwise emit the commit event with the asset
identifier and the drop cell and record the new x and z in originalPos.
Either way the drag state is cleared. -/
def onPointerUp (m : DragMachine) (assets : List Asset) : UpOutcome :=
  match m.draggedObject with
  | some o =>
      if m.isDragging then
        let gx := dropCoord o.posX
        let gy := dropCoord o.posZ
        if isOccupied (gx, gy) o.assetId assets then
          { machine := ⟨false, none⟩
            event := none
            object := some { o with posX := o.origX, posY := o.origY, posZ := o.origZ } }
        else
          { machine := ⟨false, none⟩
            event := some (o.assetId, (gx, gy))
            object := some { o with origX := o.posX, origZ := o.posZ } }
      else
        { machine := m, event := none, object := m.draggedObject }
  | none => { machine := m, event := none, object := none }

/-- Effect of a pointer-up on the externally owned placement table: the
emitted event, if any, is applied through handleAssetMove. -/
def applyEvent (ev : Option (String × (ℤ × ℤ))) (assets : List Asset) : List Asset :=
  match ev with
  | none => assets
  | some (id, p) => handleAssetMove id p assets

/-- One drag release: pointer-up for the session holding mesh o, with its
emitted event applied to the table. -/
def releaseStep (assets : List Asset) (o : Obj) : List Asset :=
  applyEvent (onPointerUp ⟨true, some o⟩ assets).event assets

/-- A sequence of drag releases applied in order. -/
def releaseRun (assets : List Asset) (os : List Obj) : List Asset :=
  os.foldl releaseStep assets

/-- Scene-build placement, GridRealm.tsx lines 137 to 150: the 0-based
display coordinates of an asset. An explicit cell is shifted to 0-based;
an asset without one is placed row-major by its index in the list. Both
axes are then clamped into the board. -/
def buildCoord0 (asset : Asset) (index : ℕ) : ℤ × ℤ :=
  let raw : ℤ × ℤ :=
    match asset.gridPosition with
    | some p => (p.1 - 1, p.2 - 1)
    | none => ((index : ℤ) % GRID_SIZE, (index : ℤ) / GRID_SIZE)
  (max 0 (min (GRID_SIZE - 1) raw.1), max 0 (min (GRID_SIZE - 1) raw.2))

/-- The 1-based display cell recorded in userData.gridX and userData.gridY,
GridRealm.tsx lines 176 and 177. -/
def buildCell (asset : Asset) (index : ℕ) : ℤ × ℤ :=
  ((buildCoord0 asset index).1 + 1, (buildCoord0 asset index).2 + 1)

/-- The world x and z at which the mesh is positioned, GridRealm.tsx
lines 152 and 153. -/
def buildPos (asset : Asset) (index : ℕ) : ℚ × ℚ :=
  (snapCenter (buildCoord0 asset index).1, snapCenter (buildCoord0 asset index).2)

/-- The no-double-booking invariant on a placement table: two assets with
distinct identifiers never hold the same explicit cell. Stated through
Option equality so that it is decidable on concrete tables. -/
def NoDoubleBooking (assets : List Asset) : Prop :=
  ∀ a ∈ assets, ∀ b ∈ assets,
    a.id ≠ b.id → a.gridPosition.isSome = true → a.gridPosition ≠ b.gridPosition

instance (assets : List Asset) : Decidable (NoDoubleBooking assets) := by
  unfold NoDoubleBooking
  infer_instance

/-- Floor of an integer plus one half is that integer. -/
theorem floor_add_half (z : ℤ) : Int.floor ((z : ℚ) + 1 / 2) = z := by
  rw [Int.floor_eq_iff]
  constructor
  · linarith
  · linarith

/-- The snapping argument of a cell center simplifies to the coordinate
plus one half. -/
theorem snapArg_snapCenter (g : ℤ) :
    snapCenter g / CELL_SIZE + (GRID_SIZE : ℚ) / 2 = (g : ℚ) + 1 / 2 := by
  unfold snapCenter CELL_SIZE GRID_SIZE
  push_cast
  ring

/-- The unclamped pointer-up drop coordinate of a cell center is the 1-based
coordinate of that cell. -/
theorem dropCoord_snapCenter (g : ℤ) : dropCoord (snapCenter g) = g + 1 := by
  unfold dropCoord
  rw [snapArg_snapCenter, floor_add_half]

/-- The clamped pointer-move snap coordinate of an in-board cell center is
the cell coordinate itself. -/
theorem snapCoord_snapCenter (g : ℤ) (h0 : 0 ≤ g) (h9 : g ≤ GRID_SIZE - 1) :
    snapCoord (snapCenter g) = g := by
  unfold snapCoord
  rw [snapArg_snapCenter, floor_add_half]
  unfold GRID_SIZE at h9 ⊢
  omega

/-- Snap coordinates are always clamped into the board. -/
theorem snapCoord_bounds (p : ℚ) : 0 ≤ snapCoord p ∧ snapCoord p ≤ GRID_SIZE - 1 := by
  unfold snapCoord
  refine ⟨le_max_left 0 _, max_le ?_ (min_le_left _ _)⟩
  unfold GRID_SIZE
  norm_num

/-- Unfolding of the cell comparison used inside the collision check. -/
theorem cellMatches_iff (gp : Option (ℤ × ℤ)) (t : ℤ × ℤ) :
    cellMatches gp t = true ↔ gp = some t := by
  cases gp with
  | none => simp [cellMatches]
  | some p =>
      cases p
      cases t
      simp [cellMatches]

/-- Characterization of the collision check: it reports true exactly when
some asset with a different identifier holds the target cell explicitly. -/
theorem isOccupied_iff (t : ℤ × ℤ) (ex : String) (assets : List Asset) :
    isOccupied t ex assets = true ↔
      ∃ a ∈ assets, a.id ≠ ex ∧ a.gridPosition = some t := by
  unfold isOccupied
  rw [List.any_eq_true]
  constructor
  · rintro ⟨a, ha, hb⟩
    rw [Bool.and_eq_true, bne_iff_ne, cellMatches_iff] at hb
    exact ⟨a, ha, hb⟩
  · rintro ⟨a, ha, h1, h2⟩
    refine ⟨a, ha, ?_⟩
    rw [Bool.and_eq_true, bne_iff_ne, cellMatches_iff]
    exact ⟨h1, h2⟩

/-- Negative characterization of the collision check. -/
theorem isOccupied_eq_false_iff (t : ℤ × ℤ) (ex : String) (assets : List Asset) :
    isOccupied t ex assets = false ↔
      ∀ a ∈ assets, a.id ≠ ex → a.gridPosition ≠ some t := by
  rw [← Bool.not_eq_true, isOccupied_iff]
  push_neg
  rfl

/-- Membership in the table produced by the commit callback. -/
theorem mem_handleAssetMove {b : Asset} {id : String} {p : ℤ × ℤ} {assets : List Asset} :
    b ∈ handleAssetMove id p assets ↔
      ∃ a ∈ assets,
        (if a.id == id then { a with gridPosition := some p } else a) = b := by
  unfold handleAssetMove
  rw [List.mem_map]

/-- The commit callback never changes an identifier. -/
theorem handleUpdate_id (a : Asset) (id : String) (p : ℤ × ℤ) :
    (if a.id == id then { a with gridPosition := some p } else a).id = a.id := by
  split <;> rfl

/-- Reduction of the per-asset update when the identifier matches. -/
theorem handleUpdate_eq_of_id (a : Asset) {id : String} (h : a.id = id) (p : ℤ × ℤ) :
    (if a.id == id then { a with gridPosition := some p } else a) =
      { a with gridPosition := some p } := by
  simp [h]

/-- Reduction of the per-asset update when the identifier differs. -/
theorem handleUpdate_eq_of_ne (a : Asset) {id : String} (h : a.id ≠ id) (p : ℤ × ℤ) :
    (if a.id == id then { a with gridPosition := some p } else a) = a := by
  simp [h]

/-- A commit that passed the collision check preserves the double-booking-free
invariant. -/
theorem noDoubleBooking_handleAssetMove {assets : List Asset} {sid : String} {t : ℤ × ℤ}
    (hinv : NoDoubleBooking assets)
    (hfree : isOccupied t sid assets = false) :
    NoDoubleBooking (handleAssetMove sid t assets) := by
  rw [isOccupied_eq_false_iff] at hfree
  intro a' ha' b' hb' hne hsome heq
  rw [mem_handleAssetMove] at ha' hb'
  obtain ⟨a, ha, rfl⟩ := ha'
  obtain ⟨b, hb, rfl⟩ := hb'
  by_cases hA : a.id = sid
  · by_cases hB : b.id = sid
    · apply hne
      rw [handleUpdate_id, handleUpdate_id, hA, hB]
    · rw [handleUpdate_eq_of_id a hA t, handleUpdate_eq_of_ne b hB t] at heq
      exact hfree b hb hB heq.symm
  · by_cases hB : b.id = sid
    · rw [handleUpdate_eq_of_ne a hA t, handleUpdate_eq_of_id b hB t] at heq
      exact hfree a ha hA heq
    · rw [handleUpdate_eq_of_ne a hA t] at hne hsome heq
      rw [handleUpdate_eq_of_ne b hB t] at hne heq
      exact hinv a ha b hb hne hsome heq

/-- Full reduction of pointer-up when the drop cell is occupied by another
asset: the transform reverts to the anchor and no event fires. -/
theorem onPointerUp_occupied (o : Obj) (assets : List Asset)
    (h : isOccupied (dropCoord o.posX, dropCoord o.posZ) o.assetId assets = true) :
    onPointerUp ⟨true, some o⟩ assets =
      { machine := ⟨false, none⟩
        event := none
        object := some { o with posX := o.origX, posY := o.origY, posZ := o.origZ } } := by
  unfold onPointerUp
  simp [h]

/-- Full reduction of pointer-up when the drop cell is free: the commit
event fires once with the drop cell and the anchor is moved to it. -/
theorem onPointerUp_free (o : Obj) (assets : List Asset)
    (h : isOccupied (dropCoord o.posX, dropCoord o.posZ) o.assetId assets = false) :
    onPointerUp ⟨true, some o⟩ assets =
      { machine := ⟨false, none⟩
        event := some (o.assetId, (dropCoord o.posX, dropCoord o.posZ))
        object := some { o with origX := o.posX, origZ := o.posZ } } := by
  unfold onPointerUp
  simp [h]

/-- A single guarded drag release preserves the double-booking-free
invariant. -/
theorem noDoubleBooking_releaseStep {assets : List Asset} (o : Obj)
    (hinv : NoDoubleBooking assets) : NoDoubleBooking (releaseStep assets o) := by
  unfold releaseStep
  cases hocc : isOccupied (dropCoord o.posX, dropCoord o.posZ) o.assetId assets with
  | true =>
      rw [onPointerUp_occupied o assets hocc]
      exact hinv
  | false =>
      rw [onPointerUp_free o assets hocc]
      exact noDoubleBooking_handleAssetMove hinv hocc

/-- Identifiers that are pairwise distinct resolve to a unique table entry. -/
theorem eq_of_mem_of_id_eq {assets : List Asset} {a b : Asset}
    (hnodup : (assets.map Asset.id).Nodup)
    (ha : a ∈ assets) (hb : b ∈ assets) (h : a.id = b.id) : a = b :=
  List.inj_on_of_nodup_map hnodup ha hb h

/-- Demo table entry E1 of the spec scenarios, explicitly placed at (1, 1). -/
def E1 : Asset := { id := "E1", gridPosition := some (1, 1) }

/-- Demo table entry E2 of the spec scenarios, explicitly placed at (2, 1). -/
def E2 : Asset := { id := "E2", gridPosition := some (2, 1) }

/-- The two-entry demo placement table of the spec scenarios. -/
def demoAssets : List Asset := [E1, E2]

/-- A drag session mesh for E1: anchored at the center of cell (1, 1) and
currently held over the center of cell (2, 1), lifted one unit. -/
def dragE1ToCell21 : Obj :=
  { assetId := "E1", posX := snapCenter 1, posY := 2, posZ := snapCenter 0
    origX := snapCenter 0, origY := 1, origZ := snapCenter 0 }

/-- A drag session mesh for E1 held over the center of the free cell (5, 5). -/
def dragE1ToCell55 : Obj :=
  { assetId := "E1", posX := snapCenter 4, posY := 2, posZ := snapCenter 4
    origX := snapCenter 0, origY := 1, origZ := snapCenter 0 }

/-- A drag session mesh for E1 held back over its own origin cell (1, 1). -/
def dragE1ToOrigin : Obj :=
  { assetId := "E1", posX := snapCenter 0, posY := 2, posZ := snapCenter 0
    origX := snapCenter 0, origY := 1, origZ := snapCenter 0 }

/-- A drag session mesh whose identifier matches no table entry. -/
def ghostDrag : Obj :=
  { assetId := "ghost", posX := snapCenter 4, posY := 2, posZ := snapCenter 4
    origX := snapCenter 0, origY := 1, origZ := snapCenter 0 }

/-- The mesh of E2 as a ray-cast pick result. -/
def pickE2 : Obj :=
  { assetId := "E2", posX := snapCenter 1, posY := 1, posZ := snapCenter 0
    origX := snapCenter 1, origY := 1, origZ := snapCenter 0 }

/-- C1. No-double-booking invariant: any sequence of drag releases, each of
which commits only after the collision check over the current table reports
the target cell free, preserves the invariant that no two assets with
distinct identifiers hold the same explicit cell. -/
theorem grid_commits_no_double_booking (assets : List Asset) (os : List Obj)
    (hinv : NoDoubleBooking assets) : NoDoubleBooking (releaseRun assets os) := by
  induction os generalizing assets with
  | nil => exact hinv
  | cons o os ih => exact ih (releaseStep assets o) (noDoubleBooking_releaseStep o hinv)

/-- Witness for C1 on the demo table and a concrete commit of E1 to (5, 5). -/
theorem grid_commits_no_double_booking_witness :
    NoDoubleBooking (releaseRun demoAssets [dragE1ToCell55]) :=
  grid_commits_no_double_booking demoAssets [dragE1ToCell55] (by decide)

/-- C4. Round-trip: converting an in-board cell to its world-space center
and back through the snapping conversion yields the same cell. -/
theorem cell_world_round_trip (c r : ℤ)
    (hc1 : 1 ≤ c) (hc2 : c ≤ GRID_SIZE) (hr1 : 1 ≤ r) (hr2 : r ≤ GRID_SIZE) :
    worldToCell (cellToWorld (c, r)) = (c, r) := by
  show (snapCoord (snapCenter (c - 1)) + 1, snapCoord (snapCenter (r - 1)) + 1) = (c, r)
  rw [snapCoord_snapCenter (c - 1) (by omega) (by omega),
      snapCoord_snapCenter (r - 1) (by omega) (by omega)]
  simp only [Prod.mk.injEq]
  omega

/-- Witness for C4 at the cell (7, 3). -/
theorem cell_world_round_trip_witness : worldToCell (cellToWorld (7, 3)) = (7, 3) :=
  cell_world_round_trip 7 3 (by decide) (by decide) (by decide) (by decide)

/-- C5. Clamping: the pointer-move snap always yields a cell inside the
board on both axes, and the unclamped pointer-up drop computation applied
to the snapped mesh position recovers exactly that in-board cell. -/
theorem world_to_cell_clamped (o : Obj) (px pz : ℚ) :
    (1 ≤ (worldToCell (px, pz)).1 ∧ (worldToCell (px, pz)).1 ≤ GRID_SIZE ∧
     1 ≤ (worldToCell (px, pz)).2 ∧ (worldToCell (px, pz)).2 ≤ GRID_SIZE) ∧
    dropCoord (onPointerMoveDrag o px pz).posX = (worldToCell (px, pz)).1 ∧
    dropCoord (onPointerMoveDrag o px pz).posZ = (worldToCell (px, pz)).2 := by
  obtain ⟨h1, h2⟩ := snapCoord_bounds px
  obtain ⟨h3, h4⟩ := snapCoord_bounds pz
  simp only [worldToCell, onPointerMoveDrag]
  refine ⟨⟨by omega, by omega, by omega, by omega⟩, ?_, ?_⟩
  · rw [dropCoord_snapCenter]
  · rw [dropCoord_snapCenter]

/-- C6. Collision check contract: isOccupied reports true exactly when some
asset with a different identifier explicitly holds the target cell; hence an
asset never collides with itself and assets without an explicit cell never
cause occupancy. -/
theorem isOccupied_contract (t : ℤ × ℤ) (ex : String) (assets : List Asset) :
    isOccupied t ex assets = true ↔
      ∃ a ∈ assets, a.id ≠ ex ∧ a.gridPosition = some t :=
  isOccupied_iff t ex assets

/-- Witness for C6: cell (2, 1) is occupied for E1 on the demo table. -/
theorem isOccupied_contract_witness : isOccupied (2, 1) "E1" demoAssets = true :=
  (isOccupied_contract (2, 1) "E1" demoAssets).mpr (by decide)

/-- C2. Occupied drop is atomic: releasing over a cell explicitly held by a
different asset emits no commit event, restores the mesh transform to the
recorded anchor, leaves the placement table unchanged and clears the drag. -/
theorem occupied_drop_atomic (o : Obj) (assets : List Asset)
    (hocc : ∃ b ∈ assets, b.id ≠ o.assetId ∧
      b.gridPosition = some (dropCoord o.posX, dropCoord o.posZ)) :
    (onPointerUp ⟨true, some o⟩ assets).event = none ∧
    (onPointerUp ⟨true, some o⟩ assets).object =
      some { o with posX := o.origX, posY := o.origY, posZ := o.origZ } ∧
    applyEvent (onPointerUp ⟨true, some o⟩ assets).event assets = assets ∧
    (onPointerUp ⟨true, some o⟩ assets).machine = ⟨false, none⟩ := by
  have h : isOccupied (dropCoord o.posX, dropCoord o.posZ) o.assetId assets = true :=
    (isOccupied_iff _ _ _).mpr hocc
  rw [onPointerUp_occupied o assets h]
  exact ⟨rfl, rfl, rfl, rfl⟩

/-- Witness for C2 on the spec scenario: E1 dragged onto (2, 1), held by E2. -/
theorem occupied_drop_atomic_witness :
    (onPointerUp ⟨true, some dragE1ToCell21⟩ demoAssets).event = none ∧
    (onPointerUp ⟨true, some dragE1ToCell21⟩ demoAssets).object =
      some { dragE1ToCell21 with
             posX := dragE1ToCell21.origX
             posY := dragE1ToCell21.origY
             posZ := dragE1ToCell21.origZ } ∧
    applyEvent (onPointerUp ⟨true, some dragE1ToCell21⟩ demoAssets).event demoAssets =
      demoAssets ∧
    (onPointerUp ⟨true, some dragE1ToCell21⟩ demoAssets).machine = ⟨false, none⟩ :=
  occupied_drop_atomic dragE1ToCell21 demoAssets
    (by simp only [dragE1ToCell21, dropCoord_snapCenter]; decide)

/-- C3. Successful commit: releasing over a cell not explicitly held by any
other asset emits the commit event exactly once, carrying the dragged
identifier and the drop cell, and applying it to the table maps every entry
with that identifier to the drop cell. -/
theorem free_drop_commits_once (o : Obj) (assets : List Asset)
    (hfree : ∀ b ∈ assets, b.id ≠ o.assetId →
      b.gridPosition ≠ some (dropCoord o.posX, dropCoord o.posZ)) :
    (onPointerUp ⟨true, some o⟩ assets).event =
      some (o.assetId, (dropCoord o.posX, dropCoord o.posZ)) ∧
    applyEvent (onPointerUp ⟨true, some o⟩ assets).event assets =
      handleAssetMove o.assetId (dropCoord o.posX, dropCoord o.posZ) assets ∧
    ∀ a ∈ applyEvent (onPointerUp ⟨true, some o⟩ assets).event assets,
      a.id = o.assetId → a.gridPosition = some (dropCoord o.posX, dropCoord o.posZ) := by
  have h : isOccupied (dropCoord o.posX, dropCoord o.posZ) o.assetId assets = false :=
    (isOccupied_eq_false_iff _ _ _).mpr hfree
  rw [onPointerUp_free o assets h]
  refine ⟨rfl, rfl, ?_⟩
  intro a ha hid
  simp only [applyEvent] at ha
  rw [mem_handleAssetMove] at ha
  obtain ⟨b, hb, rfl⟩ := ha
  by_cases hB : b.id = o.assetId
  · rw [handleUpdate_eq_of_id b hB]
  · rw [handleUpdate_eq_of_ne b hB] at hid
    exact absurd hid hB

/-- Witness for C3 on the spec scenario: E1 dropped on the free cell (5, 5). -/
theorem free_drop_commits_once_witness :
    (onPointerUp ⟨true, some dragE1ToCell55⟩ demoAssets).event =
      some (dragE1ToCell55.assetId,
        (dropCoord dragE1ToCell55.posX, dropCoord dragE1ToCell55.posZ)) ∧
    applyEvent (onPointerUp ⟨true, some dragE1ToCell55⟩ demoAssets).event demoAssets =
      handleAssetMove dragE1ToCell55.assetId
        (dropCoord dragE1ToCell55.posX, dropCoord dragE1ToCell55.posZ) demoAssets ∧
    ∀ a ∈ applyEvent (onPointerUp ⟨true, some dragE1ToCell55⟩ demoAssets).event demoAssets,
      a.id = dragE1ToCell55.assetId →
        a.gridPosition = some (dropCoord dragE1ToCell55.posX, dropCoord dragE1ToCell55.posZ) :=
  free_drop_commits_once dragE1ToCell55 demoAssets
    (by simp only [dragE1ToCell55, dropCoord_snapCenter]; decide)

/-- Replacing the stored cell of an asset by the cell it already holds is
the identity. -/
theorem asset_update_self {a : Asset} {p : ℤ × ℤ} (h : a.gridPosition = some p) :
    { a with gridPosition := some p } = a := by
  cases a with
  | mk i g => exact congrArg (Asset.mk i) h.symm

/-- C8. Idempotent origin drop: when the dragged asset itself explicitly
holds the drop cell (its origin), the placement table after pointer-up,
commit callback included, is unchanged. Identifiers are assumed pairwise
distinct, as in any well-formed table. -/
theorem origin_drop_table_unchanged (o : Obj) (assets : List Asset) (a : Asset)
    (hnodup : (assets.map Asset.id).Nodup)
    (hmem : a ∈ assets) (hid : a.id = o.assetId)
    (hcell : a.gridPosition = some (dropCoord o.posX, dropCoord o.posZ)) :
    applyEvent (onPointerUp ⟨true, some o⟩ assets).event assets = assets := by
  cases hocc : isOccupied (dropCoord o.posX, dropCoord o.posZ) o.assetId assets with
  | true =>
      rw [onPointerUp_occupied o assets hocc]
      rfl
  | false =>
      rw [onPointerUp_free o assets hocc]
      show handleAssetMove o.assetId (dropCoord o.posX, dropCoord o.posZ) assets = assets
      unfold handleAssetMove
      have hall : ∀ b ∈ assets,
          (if b.id == o.assetId then
            { b with gridPosition := some (dropCoord o.posX, dropCoord o.posZ) }
          else b) = b := by
        intro b hb
        by_cases hB : b.id = o.assetId
        · rw [handleUpdate_eq_of_id b hB]
          have hba : b = a := eq_of_mem_of_id_eq hnodup hb hmem (by rw [hB, hid])
          subst hba
          exact asset_update_self hcell
        · exact handleUpdate_eq_of_ne b hB _
      rw [List.map_congr_left hall]
      exact List.map_id' assets

/-- Witness for C8: E1 dropped back on its own cell (1, 1) in the demo
table leaves the table unchanged. -/
theorem origin_drop_table_unchanged_witness :
    applyEvent (onPointerUp ⟨true, some dragE1ToOrigin⟩ demoAssets).event demoAssets =
      demoAssets :=
  origin_drop_table_unchanged dragE1ToOrigin demoAssets E1 (by decide) (by decide) rfl
    (by simp only [dragE1ToOrigin, E1, dropCoord_snapCenter]; decide)

/-- C9 counterexample. A pointer-up whose dragged identifier matches no
table entry does emit a commit event when the drop cell is free: with the
stale session over cell (5, 5) and a table not containing "ghost", the
event some ("ghost", (5, 5)) fires, against the claim that none does. -/
theorem stale_drag_emits_event_cex :
    (∀ a ∈ demoAssets, a.id ≠ ghostDrag.assetId) ∧
    (onPointerUp ⟨true, some ghostDrag⟩ demoAssets).event = some ("ghost", (5, 5)) := by
  refine ⟨by decide, ?_⟩
  have h : isOccupied (dropCoord ghostDrag.posX, dropCoord ghostDrag.posZ)
      ghostDrag.assetId demoAssets = false := by
    simp only [ghostDrag, dropCoord_snapCenter]
    decide
  rw [onPointerUp_free ghostDrag demoAssets h]
  simp only [ghostDrag, dropCoord_snapCenter]
  decide

/-- C9 amended. Stale-entity release: pointer-up with an identifier absent
from the table always clears the drag state, and its effect on the table is
a no-op; when the drop cell is free the commit event still fires with the
stale identifier, but applying it changes no entry. -/
theorem stale_drag_release_noop (o : Obj) (assets : List Asset)
    (hstale : ∀ a ∈ assets, a.id ≠ o.assetId) :
    (onPointerUp ⟨true, some o⟩ assets).machine = ⟨false, none⟩ ∧
    applyEvent (onPointerUp ⟨true, some o⟩ assets).event assets = assets := by
  cases hocc : isOccupied (dropCoord o.posX, dropCoord o.posZ) o.assetId assets with
  | true =>
      rw [onPointerUp_occupied o assets hocc]
      exact ⟨rfl, rfl⟩
  | false =>
      rw [onPointerUp_free o assets hocc]
      refine ⟨rfl, ?_⟩
      show handleAssetMove o.assetId (dropCoord o.posX, dropCoord o.posZ) assets = assets
      unfold handleAssetMove
      have hall : ∀ b ∈ assets,
          (if b.id == o.assetId then
            { b with gridPosition := some (dropCoord o.posX, dropCoord o.posZ) }
          else b) = b := fun b hb => handleUpdate_eq_of_ne b (hstale b hb) _
      rw [List.map_congr_left hall]
      exact List.map_id' assets

/-- Witness for the amended C9 on the ghost session over the demo table. -/
theorem stale_drag_release_noop_witness :
    (onPointerUp ⟨true, some ghostDrag⟩ demoAssets).machine = ⟨false, none⟩ ∧
    applyEvent (onPointerUp ⟨true, some ghostDrag⟩ demoAssets).event demoAssets =
      demoAssets :=
  stale_drag_release_noop ghostDrag demoAssets (by decide)

/-- C7 counterexample. A pointer-down received while a drag session is
active is not ignored: with E1 being dragged, a pointer-down whose ray
resolves to the mesh of E2 changes the machine state, replacing the
session. -/
theorem pointer_down_while_dragging_cex :
    onPointerDown ⟨true, some dragE1ToOrigin⟩ (some pickE2) ≠
      ⟨true, some dragE1ToOrigin⟩ := by
  intro h
  have h2 : (onPointerDown ⟨true, some dragE1ToOrigin⟩ (some pickE2)).draggedObject =
      some dragE1ToOrigin := by rw [h]
  simp only [onPointerDown] at h2
  rw [if_neg (by decide)] at h2
  have h4 : ({ pickE2 with posY := pickE2.posY + 1 } : Obj) = dragE1ToOrigin :=
    Option.some_inj.mp h2
  have h3 : ({ pickE2 with posY := pickE2.posY + 1 } : Obj).assetId =
      dragE1ToOrigin.assetId := by rw [h4]
  exact absurd h3 (by decide)

/-- C7 amended. Pointer-down behavior regardless of the drag state: a pick
of nothing, or of a mesh with an empty identifier, leaves the machine
unchanged; a pick of a mesh with a nonempty identifier starts a session for
that mesh (lifted one unit), replacing any active session. -/
theorem pointer_down_replaces_session (m : DragMachine) (o : Obj) :
    onPointerDown m none = m ∧
    (o.assetId = "" → onPointerDown m (some o) = m) ∧
    (o.assetId ≠ "" →
      onPointerDown m (some o) = ⟨true, some { o with posY := o.posY + 1 }⟩) := by
  refine ⟨rfl, ?_, ?_⟩
  · intro h
    simp only [onPointerDown]
    rw [if_pos (beq_iff_eq.mpr h)]
  · intro h
    simp only [onPointerDown]
    rw [if_neg (fun hc => h (beq_iff_eq.mp hc))]

/-- Witness for the amended C7: an idle machine ignores an empty pick, and
a dragging machine has its session replaced by a pick of E2. -/
theorem pointer_down_replaces_session_witness :
    onPointerDown ⟨false, none⟩ none = ⟨false, none⟩ ∧
    onPointerDown ⟨true, some dragE1ToOrigin⟩ (some pickE2) =
      ⟨true, some { pickE2 with posY := pickE2.posY + 1 }⟩ :=
  ⟨(pointer_down_replaces_session ⟨false, none⟩ pickE2).1,
   (pointer_down_replaces_session ⟨true, some dragE1ToOrigin⟩ pickE2).2.2 (by decide)⟩

/-- C10. Scene-build placement is always in bounds: every mesh is placed at
the world center of a cell inside the board; an explicit in-board cell is
displayed as is, an out-of-board one is clamped for display only, and an
asset without an explicit cell is placed row-major by its list index, also
clamped. -/
theorem scene_build_in_bounds (asset : Asset) (index : ℕ) :
    (1 ≤ (buildCell asset index).1 ∧ (buildCell asset index).1 ≤ GRID_SIZE ∧
     1 ≤ (buildCell asset index).2 ∧ (buildCell asset index).2 ≤ GRID_SIZE) ∧
    buildPos asset index = cellToWorld (buildCell asset index) ∧
    (∀ p : ℤ × ℤ, asset.gridPosition = some p →
      1 ≤ p.1 → p.1 ≤ GRID_SIZE → 1 ≤ p.2 → p.2 ≤ GRID_SIZE →
      buildCell asset index = p) ∧
    (asset.gridPosition = none →
      buildCell asset index =
        (max 0 (min (GRID_SIZE - 1) ((index : ℤ) % GRID_SIZE)) + 1,
         max 0 (min (GRID_SIZE - 1) ((index : ℤ) / GRID_SIZE)) + 1)) := by
  refine ⟨?_, ?_, ?_, ?_⟩
  · cases hgp : asset.gridPosition with
    | some p =>
        simp only [buildCell, buildCoord0, hgp, GRID_SIZE]
        omega
    | none =>
        simp only [buildCell, buildCoord0, hgp, GRID_SIZE]
        omega
  · simp only [buildPos, cellToWorld, buildCell, add_sub_cancel_right]
  · intro p hp h1 h2 h3 h4
    simp only [buildCell, buildCoord0, hp, GRID_SIZE] at *
    rw [Prod.ext_iff]
    constructor
    · simp only
      omega
    · simp only
      omega
  · intro hnone
    simp only [buildCell, buildCoord0, hnone]

/-- Witness for C10 at an asset explicitly placed in bounds. -/
theorem scene_build_in_bounds_witness :
    buildCell { id := "a7", gridPosition := some (3, 4) } 0 = (3, 4) :=
  (scene_build_in_bounds { id := "a7", gridPosition := some (3, 4) } 0).2.2.1 (3, 4) rfl
    (by decide) (by decide) (by decide) (by decide)

end Funday
